import Mathlib

/-!
Shallow embedding of the joy controller codec layer.

Machine integers are modelled as Nat. Bytes (u8) are Nats; theorems that
depend on byte-sized fields carry explicit hypotheses that the field is
below 256. Where Rust performs a narrowing cast (as u8) the embedding
takes the value modulo 256; where a u16 addition could wrap, the embedding
takes the sum modulo 65536. Rust saturating_sub on unsigned integers is
exactly Nat subtraction. Functions that can panic in Rust (assert, expect,
unwrap on a possibly absent value) are embedded as Option-returning
functions where the value none marks the panic.
-/

/-! ## Stick calibration bit packing (src/spi.rs) -/

/-- A 3-byte field, mirroring the Rust array type of three u8 values. -/
structure Byte3 where
  b0 : Nat
  b1 : Nat
  b2 : Nat
deriving DecidableEq

/-- All three fields of a Byte3 are byte-sized. -/
def Byte3.Wf (r : Byte3) : Prop := r.b0 < 256 ∧ r.b1 < 256 ∧ r.b2 < 256

instance (r : Byte3) : Decidable r.Wf := by unfold Byte3.Wf; infer_instance

/-- Embedding of cord_packing: packs two 12-bit values into three bytes.
Each component is reduced modulo 256, mirroring the Rust as-u8 casts. -/
def cord_packing (x y : Nat) : Byte3 :=
  { b0 := (x &&& 0x00FF) % 256
    b1 := (((x >>> 8) &&& 0x000F) % 256) ||| (((y &&& 0x000F) <<< 4) % 256)
    b2 := (y >>> 4) % 256 }

/-- Embedding of LeftStickCalibration. The raw fields are stored in the
order max, center, min as in the source; the Rust private fields max,
center and min are renamed maxRaw, centerRaw and minRaw because the
decoded accessors of the same names exist alongside them. -/
structure LeftStickCalibration where
  maxRaw : Byte3
  centerRaw : Byte3
  minRaw : Byte3
deriving DecidableEq

/-- All raw fields are byte-sized. -/
def LeftStickCalibration.Wf (s : LeftStickCalibration) : Prop :=
  s.maxRaw.Wf ∧ s.centerRaw.Wf ∧ s.minRaw.Wf

instance (s : LeftStickCalibration) : Decidable s.Wf := by
  unfold LeftStickCalibration.Wf; infer_instance

/-- Embedding of the Default instance for LeftStickCalibration. -/
def LeftStickCalibration.default : LeftStickCalibration :=
  { maxRaw := cord_packing 0x510 0x479
    centerRaw := cord_packing 0x79F 0x8A0
    minRaw := cord_packing 0x4F7 0x424 }

/-- Embedding of LeftStickCalibration::conv_x. The self parameter is
unused, exactly as in the source. -/
def LeftStickCalibration.conv_x (_s : LeftStickCalibration) (raw : Byte3) : Nat :=
  ((raw.b1 <<< 8) &&& 0xF00) ||| raw.b0

/-- Embedding of LeftStickCalibration::conv_y. -/
def LeftStickCalibration.conv_y (_s : LeftStickCalibration) (raw : Byte3) : Nat :=
  (raw.b2 <<< 4) ||| (raw.b1 >>> 4)

/-- Embedding of LeftStickCalibration::center. -/
def LeftStickCalibration.center (s : LeftStickCalibration) : Nat × Nat :=
  (s.conv_x s.centerRaw, s.conv_y s.centerRaw)

/-- Embedding of LeftStickCalibration::max. The u16 addition is taken
modulo 65536 since Rust release-mode addition wraps. -/
def LeftStickCalibration.max (s : LeftStickCalibration) : Nat × Nat :=
  (Nat.min ((s.center.1 + s.conv_x s.maxRaw) % 65536) 0xFFF,
   Nat.min ((s.center.2 + s.conv_y s.maxRaw) % 65536) 0xFFF)

/-- Embedding of LeftStickCalibration::min. Nat subtraction is Rust
u16::saturating_sub. -/
def LeftStickCalibration.min (s : LeftStickCalibration) : Nat × Nat :=
  (s.center.1 - s.conv_x s.minRaw, s.center.2 - s.conv_y s.minRaw)

/-- Embedding of RightStickCalibration; raw field order center, min, max
as in the source. -/
structure RightStickCalibration where
  centerRaw : Byte3
  minRaw : Byte3
  maxRaw : Byte3
deriving DecidableEq

/-- All raw fields are byte-sized. -/
def RightStickCalibration.Wf (s : RightStickCalibration) : Prop :=
  s.centerRaw.Wf ∧ s.minRaw.Wf ∧ s.maxRaw.Wf

instance (s : RightStickCalibration) : Decidable s.Wf := by
  unfold RightStickCalibration.Wf; infer_instance

/-- Embedding of the Default instance for RightStickCalibration. -/
def RightStickCalibration.default : RightStickCalibration :=
  { centerRaw := cord_packing 0x79F 0x8A0
    minRaw := cord_packing 0x4F7 0x424
    maxRaw := cord_packing 0x510 0x479 }

/-- Embedding of RightStickCalibration::conv_x. -/
def RightStickCalibration.conv_x (_s : RightStickCalibration) (raw : Byte3) : Nat :=
  ((raw.b1 <<< 8) &&& 0xF00) ||| raw.b0

/-- Embedding of RightStickCalibration::conv_y. -/
def RightStickCalibration.conv_y (_s : RightStickCalibration) (raw : Byte3) : Nat :=
  (raw.b2 <<< 4) ||| (raw.b1 >>> 4)

/-- Embedding of RightStickCalibration::center. -/
def RightStickCalibration.center (s : RightStickCalibration) : Nat × Nat :=
  (s.conv_x s.centerRaw, s.conv_y s.centerRaw)

/-- Embedding of RightStickCalibration::max. -/
def RightStickCalibration.max (s : RightStickCalibration) : Nat × Nat :=
  (Nat.min ((s.center.1 + s.conv_x s.maxRaw) % 65536) 0xFFF,
   Nat.min ((s.center.2 + s.conv_y s.maxRaw) % 65536) 0xFFF)

/-- Embedding of RightStickCalibration::min. -/
def RightStickCalibration.min (s : RightStickCalibration) : Nat × Nat :=
  (s.center.1 - s.conv_x s.minRaw, s.center.2 - s.conv_y s.minRaw)

/-! ## Magic-sentinel user calibration wrappers (src/spi.rs) -/

/-- The present sentinel, USER_CALIB_MAGIC = [0xB2, 0xA1]. -/
def USER_CALIB_MAGIC : Nat × Nat := (0xB2, 0xA1)

/-- The absent sentinel, USER_NO_CALIB_MAGIC = [0xFF, 0xFF]. -/
def USER_NO_CALIB_MAGIC : Nat × Nat := (0xFF, 0xFF)

/-- Embedding of LeftUserStickCalibration: a 2-byte magic sentinel
followed by a left stick calibration record. -/
structure LeftUserStickCalibration where
  magic : Nat × Nat
  calib : LeftStickCalibration
deriving DecidableEq

/-- Embedding of LeftUserStickCalibration::set_magic. -/
def LeftUserStickCalibration.set_magic (s : LeftUserStickCalibration) (b : Bool) :
    LeftUserStickCalibration :=
  match b with
  | true => { s with magic := USER_CALIB_MAGIC }
  | false => { s with magic := USER_NO_CALIB_MAGIC }

/-- Embedding of LeftUserStickCalibration::set_calib. The source only
assigns the calib field and leaves the magic sentinel untouched. -/
def LeftUserStickCalibration.set_calib (s : LeftUserStickCalibration)
    (c : LeftStickCalibration) : LeftUserStickCalibration :=
  { s with calib := c }

/-- Embedding of LeftUserStickCalibration::calib, the optional accessor
gated on the magic sentinel. -/
def LeftUserStickCalibration.calib? (s : LeftUserStickCalibration) :
    Option LeftStickCalibration :=
  if s.magic = USER_CALIB_MAGIC then some s.calib else none

/-- Embedding of RightUserStickCalibration. -/
structure RightUserStickCalibration where
  magic : Nat × Nat
  calib : RightStickCalibration
deriving DecidableEq

/-- Embedding of RightUserStickCalibration::set_calib. Unlike the left
wrapper, the source sets the magic sentinel to present here. -/
def RightUserStickCalibration.set_calib (_s : RightUserStickCalibration)
    (c : RightStickCalibration) : RightUserStickCalibration :=
  { magic := USER_CALIB_MAGIC, calib := c }

/-- Embedding of RightUserStickCalibration::calib. -/
def RightUserStickCalibration.calib? (s : RightUserStickCalibration) :
    Option RightStickCalibration :=
  if s.magic = USER_CALIB_MAGIC then some s.calib else none

/-! ## Arithmetic characterization of the bit-packing -/

theorem and255_eq_mod (x : Nat) : x &&& 0x00FF = x % 256 := by
  have h := Nat.and_pow_two_sub_one_eq_mod x 8
  norm_num at h
  exact h

theorem and15_eq_mod (x : Nat) : x &&& 0x000F = x % 16 := by
  have h := Nat.and_pow_two_sub_one_eq_mod x 4
  norm_num at h
  exact h

set_option maxRecDepth 100000 in
theorem lor_lowhigh : ∀ a < 16, ∀ c < 16, (a % 256) ||| ((c * 16) % 256) = a + 16 * c := by
  decide

set_option maxRecDepth 100000 in
theorem hi_byte_mask : ∀ b < 256, (b <<< 8) &&& 0xF00 = b % 16 * 256 := by
  decide

set_option maxRecDepth 100000 in
theorem lor_hi8_lo8 : ∀ m < 16, ∀ b < 256, m * 256 ||| b = m * 256 + b := by
  decide

set_option maxRecDepth 100000 in
theorem lor_shl4 : ∀ h < 256, ∀ l < 16, (h <<< 4) ||| l = 16 * h + l := by
  decide

theorem cord_packing_b0 (x y : Nat) : (cord_packing x y).b0 = x % 256 := by
  show (x &&& 0x00FF) % 256 = x % 256
  rw [and255_eq_mod]
  omega

theorem cord_packing_b1 (x y : Nat) :
    (cord_packing x y).b1 = x / 256 % 16 + 16 * (y % 16) := by
  show (((x >>> 8) &&& 0x000F) % 256) ||| (((y &&& 0x000F) <<< 4) % 256) = _
  rw [Nat.shiftRight_eq_div_pow, and15_eq_mod, and15_eq_mod, Nat.shiftLeft_eq]
  norm_num
  exact lor_lowhigh (x / 256 % 16) (by omega) (y % 16) (by omega)

theorem cord_packing_b2 (x y : Nat) : (cord_packing x y).b2 = y / 16 % 256 := by
  show (y >>> 4) % 256 = y / 16 % 256
  rw [Nat.shiftRight_eq_div_pow]

theorem conv_x_val (r : Byte3) (h : r.Wf) :
    ((r.b1 <<< 8) &&& 0xF00) ||| r.b0 = r.b1 % 16 * 256 + r.b0 := by
  rw [hi_byte_mask r.b1 h.2.1]
  exact lor_hi8_lo8 (r.b1 % 16) (by omega) r.b0 h.1

theorem conv_y_val (r : Byte3) (h : r.Wf) :
    (r.b2 <<< 4) ||| (r.b1 >>> 4) = 16 * r.b2 + r.b1 / 16 := by
  obtain ⟨h0, h1, h2⟩ := h
  rw [Nat.shiftRight_eq_div_pow]
  norm_num
  have h4 : r.b1 / 16 < 16 := by omega
  exact lor_shl4 r.b2 h2 (r.b1 / 16) h4

theorem cord_packing_wf (x y : Nat) : (cord_packing x y).Wf := by
  refine ⟨?_, ?_, ?_⟩
  · show (cord_packing x y).b0 < 256
    rw [cord_packing_b0]; omega
  · show (cord_packing x y).b1 < 256
    rw [cord_packing_b1]; omega
  · show (cord_packing x y).b2 < 256
    rw [cord_packing_b2]; omega

theorem conv_x_le (r : Byte3) (h : r.Wf) : ((r.b1 <<< 8) &&& 0xF00) ||| r.b0 ≤ 0xFFF := by
  obtain ⟨h0, h1, h2⟩ := h
  rw [conv_x_val r ⟨h0, h1, h2⟩]
  omega

theorem conv_y_le (r : Byte3) (h : r.Wf) : (r.b2 <<< 4) ||| (r.b1 >>> 4) ≤ 0xFFF := by
  obtain ⟨h0, h1, h2⟩ := h
  rw [conv_y_val r ⟨h0, h1, h2⟩]
  omega

/-! ## Claim theorems on the stick calibration codec -/

/-- C6: for every pair of 12-bit values (x, y), packing with cord_packing
and unpacking with conv_x and conv_y recovers exactly (x, y). -/
theorem cord_packing_conv_roundtrip (s : LeftStickCalibration) (x y : Nat)
    (hx : x ≤ 0xFFF) (hy : y ≤ 0xFFF) :
    s.conv_x (cord_packing x y) = x ∧ s.conv_y (cord_packing x y) = y := by
  have wf := cord_packing_wf x y
  constructor
  · show (((cord_packing x y).b1 <<< 8) &&& 0xF00) ||| (cord_packing x y).b0 = x
    rw [conv_x_val _ wf, cord_packing_b0, cord_packing_b1]
    omega
  · show ((cord_packing x y).b2 <<< 4) ||| ((cord_packing x y).b1 >>> 4) = y
    rw [conv_y_val _ wf, cord_packing_b1, cord_packing_b2]
    omega

theorem cord_packing_conv_roundtrip_witness :
    0x123 ≤ 0xFFF ∧ 0xABC ≤ 0xFFF ∧
    (LeftStickCalibration.default.conv_x (cord_packing 0x123 0xABC) = 0x123 ∧
     LeftStickCalibration.default.conv_y (cord_packing 0x123 0xABC) = 0xABC) :=
  ⟨by decide, by decide,
   cord_packing_conv_roundtrip LeftStickCalibration.default 0x123 0xABC
     (by decide) (by decide)⟩

/-- C10: for every byte-valued 3-byte raw field, conv_x and conv_y are
bounded by 0xFFF, so in max() the sums of center and decoded offset are
at most 0x1FFE and the u16 additions never wrap; the decoded accessors
are total for all byte patterns. Stated for both stick records. -/
theorem conv_bounded_additions_never_wrap :
    (∀ (s : LeftStickCalibration), s.Wf →
      (∀ r : Byte3, r.Wf → s.conv_x r ≤ 0xFFF ∧ s.conv_y r ≤ 0xFFF) ∧
      s.center.1 + s.conv_x s.maxRaw ≤ 0x1FFE ∧
      s.center.2 + s.conv_y s.maxRaw ≤ 0x1FFE ∧
      (s.center.1 + s.conv_x s.maxRaw) % 65536 = s.center.1 + s.conv_x s.maxRaw ∧
      (s.center.2 + s.conv_y s.maxRaw) % 65536 = s.center.2 + s.conv_y s.maxRaw) ∧
    (∀ (s : RightStickCalibration), s.Wf →
      (∀ r : Byte3, r.Wf → s.conv_x r ≤ 0xFFF ∧ s.conv_y r ≤ 0xFFF) ∧
      s.center.1 + s.conv_x s.maxRaw ≤ 0x1FFE ∧
      s.center.2 + s.conv_y s.maxRaw ≤ 0x1FFE ∧
      (s.center.1 + s.conv_x s.maxRaw) % 65536 = s.center.1 + s.conv_x s.maxRaw ∧
      (s.center.2 + s.conv_y s.maxRaw) % 65536 = s.center.2 + s.conv_y s.maxRaw) := by
  constructor
  · intro s hs
    obtain ⟨hm, hc, hn⟩ := hs
    have hcx := conv_x_le s.centerRaw hc
    have hcy := conv_y_le s.centerRaw hc
    have hmx := conv_x_le s.maxRaw hm
    have hmy := conv_y_le s.maxRaw hm
    refine ⟨fun r hr => ⟨conv_x_le r hr, conv_y_le r hr⟩, ?_, ?_, ?_, ?_⟩ <;>
      simp only [LeftStickCalibration.center, LeftStickCalibration.conv_x,
        LeftStickCalibration.conv_y] <;>
      omega
  · intro s hs
    obtain ⟨hc, hn, hm⟩ := hs
    have hcx := conv_x_le s.centerRaw hc
    have hcy := conv_y_le s.centerRaw hc
    have hmx := conv_x_le s.maxRaw hm
    have hmy := conv_y_le s.maxRaw hm
    refine ⟨fun r hr => ⟨conv_x_le r hr, conv_y_le r hr⟩, ?_, ?_, ?_, ?_⟩ <;>
      simp only [RightStickCalibration.center, RightStickCalibration.conv_x,
        RightStickCalibration.conv_y] <;>
      omega

theorem conv_bounded_additions_never_wrap_witness :
    LeftStickCalibration.default.Wf ∧
    (LeftStickCalibration.default.center.1 +
      LeftStickCalibration.default.conv_x LeftStickCalibration.default.maxRaw) % 65536 =
      LeftStickCalibration.default.center.1 +
        LeftStickCalibration.default.conv_x LeftStickCalibration.default.maxRaw :=
  ⟨by decide,
   (conv_bounded_additions_never_wrap.1 LeftStickCalibration.default (by decide)).2.2.2.1⟩

/-- C7: for every byte-valued stick calibration record, max() is the
center plus the decoded max offset clamped to 0xFFF with no wraparound,
min() is the center minus the decoded min offset with saturation at 0,
and center() is the direct decode of the center raw field. -/
theorem stick_max_min_center_formulas :
    (∀ (s : LeftStickCalibration), s.Wf →
      s.max = (Nat.min (s.center.1 + s.conv_x s.maxRaw) 0xFFF,
               Nat.min (s.center.2 + s.conv_y s.maxRaw) 0xFFF) ∧
      s.min = ((if s.conv_x s.minRaw ≤ s.center.1 then s.center.1 - s.conv_x s.minRaw else 0),
               (if s.conv_y s.minRaw ≤ s.center.2 then s.center.2 - s.conv_y s.minRaw else 0)) ∧
      s.center = (s.conv_x s.centerRaw, s.conv_y s.centerRaw)) ∧
    (∀ (s : RightStickCalibration), s.Wf →
      s.max = (Nat.min (s.center.1 + s.conv_x s.maxRaw) 0xFFF,
               Nat.min (s.center.2 + s.conv_y s.maxRaw) 0xFFF) ∧
      s.min = ((if s.conv_x s.minRaw ≤ s.center.1 then s.center.1 - s.conv_x s.minRaw else 0),
               (if s.conv_y s.minRaw ≤ s.center.2 then s.center.2 - s.conv_y s.minRaw else 0)) ∧
      s.center = (s.conv_x s.centerRaw, s.conv_y s.centerRaw)) := by
  constructor
  · intro s hs
    obtain ⟨hm, hc, hn⟩ := hs
    have hcx := conv_x_le s.centerRaw hc
    have hcy := conv_y_le s.centerRaw hc
    have hmx := conv_x_le s.maxRaw hm
    have hmy := conv_y_le s.maxRaw hm
    refine ⟨?_, ?_, rfl⟩
    · simp only [LeftStickCalibration.max, LeftStickCalibration.center,
        LeftStickCalibration.conv_x, LeftStickCalibration.conv_y, Prod.mk.injEq]
      constructor <;> rw [Nat.mod_eq_of_lt (by omega)]
    · simp only [LeftStickCalibration.min, LeftStickCalibration.center,
        LeftStickCalibration.conv_x, LeftStickCalibration.conv_y, Prod.mk.injEq]
      constructor <;> split <;> omega
  · intro s hs
    obtain ⟨hc, hn, hm⟩ := hs
    have hcx := conv_x_le s.centerRaw hc
    have hcy := conv_y_le s.centerRaw hc
    have hmx := conv_x_le s.maxRaw hm
    have hmy := conv_y_le s.maxRaw hm
    refine ⟨?_, ?_, rfl⟩
    · simp only [RightStickCalibration.max, RightStickCalibration.center,
        RightStickCalibration.conv_x, RightStickCalibration.conv_y, Prod.mk.injEq]
      constructor <;> rw [Nat.mod_eq_of_lt (by omega)]
    · simp only [RightStickCalibration.min, RightStickCalibration.center,
        RightStickCalibration.conv_x, RightStickCalibration.conv_y, Prod.mk.injEq]
      constructor <;> split <;> omega

theorem stick_max_min_center_formulas_witness :
    RightStickCalibration.default.Wf ∧
    RightStickCalibration.default.center =
      (RightStickCalibration.default.conv_x RightStickCalibration.default.centerRaw,
       RightStickCalibration.default.conv_y RightStickCalibration.default.centerRaw) :=
  ⟨by decide,
   (stick_max_min_center_formulas.2 RightStickCalibration.default (by decide)).2.2⟩

/-- C9: the default left and right stick calibrations decode to the
physically plausible ordering min < center < max on both axes. -/
theorem default_calibration_ordering :
    (LeftStickCalibration.default.min.1 < LeftStickCalibration.default.center.1 ∧
     LeftStickCalibration.default.center.1 < LeftStickCalibration.default.max.1 ∧
     LeftStickCalibration.default.min.2 < LeftStickCalibration.default.center.2 ∧
     LeftStickCalibration.default.center.2 < LeftStickCalibration.default.max.2) ∧
    (RightStickCalibration.default.min.1 < RightStickCalibration.default.center.1 ∧
     RightStickCalibration.default.center.1 < RightStickCalibration.default.max.1 ∧
     RightStickCalibration.default.min.2 < RightStickCalibration.default.center.2 ∧
     RightStickCalibration.default.center.2 < RightStickCalibration.default.max.2) := by
  decide

/-- C2 is false on the code: the left user wrapper set_calib does not set
the magic sentinel, so starting from the absent sentinel a subsequent
calib access still yields none, while the right wrapper does set the
sentinel as the spec describes. -/
theorem left_set_calib_does_not_set_present_magic :
    (LeftUserStickCalibration.set_calib
        ⟨USER_NO_CALIB_MAGIC, LeftStickCalibration.default⟩
        LeftStickCalibration.default).calib? = none ∧
    (RightUserStickCalibration.set_calib
        ⟨USER_NO_CALIB_MAGIC, RightStickCalibration.default⟩
        RightStickCalibration.default).calib? =
      some RightStickCalibration.default := by
  decide

/-! ## SPI transaction codec (src/spi.rs) -/

/-- Embedding of SPIRange: a 32-bit flash offset and an 8-bit size. -/
structure SPIRange where
  offset : Nat
  size : Nat
deriving DecidableEq

def RANGE_FACTORY_CALIBRATION_SENSORS : SPIRange := ⟨0x6020, 0x18⟩

def RANGE_FACTORY_CALIBRATION_STICKS : SPIRange := ⟨0x603D, 0x12⟩

def RANGE_USER_CALIBRATION_STICKS : SPIRange := ⟨0x8010, 0x16⟩

def RANGE_USER_CALIBRATION_SENSORS : SPIRange := ⟨0x8026, 0x1A⟩

def RANGE_CONTROLLER_COLOR : SPIRange := ⟨0x6050, 12⟩

/-- Embedding of WrongRangeError, carrying the expected and actual range. -/
structure WrongRangeError where
  expected : SPIRange
  got : SPIRange
deriving DecidableEq

/-- Little-endian byte encoding of a u32 value, as in U32LE. -/
def u32ToLEBytes (v : Nat) : List Nat :=
  [v % 256, v / 256 % 256, v / 65536 % 256, v / 16777216 % 256]

/-- Little-endian decoding of four bytes to a u32 value. -/
def u32FromLEBytes (l : List Nat) : Nat :=
  l.getD 0 0 + 256 * l.getD 1 0 + 65536 * l.getD 2 0 + 16777216 * l.getD 3 0

/-- Embedding of SPIReadResult: a little-endian address, a size byte and
the 29-byte data union. The union SPIData is modelled as the raw byte
buffer; typed union writes serialize the payload at the front with the
unwritten remainder zero, and typed union reads deserialize the prefix,
which is all the Rust union reads in the conversions below observe. -/
structure SPIReadResult where
  address : List Nat
  size : Nat
  data : List Nat

/-- Embedding of SPIReadResult::range. -/
def SPIReadResult.range (r : SPIReadResult) : SPIRange :=
  ⟨u32FromLEBytes r.address, r.size⟩

/-- Embedding of I16LE: two bytes, little endian. -/
structure I16LE where
  b0 : Nat
  b1 : Nat
deriving DecidableEq

/-- Byte serialization of a 3-byte raw field. -/
def Byte3.toBytes (r : Byte3) : List Nat := [r.b0, r.b1, r.b2]

/-- Byte deserialization of a 3-byte raw field. -/
def Byte3.ofBytes (l : List Nat) : Byte3 := ⟨l.getD 0 0, l.getD 1 0, l.getD 2 0⟩

/-- Byte layout of LeftStickCalibration: max, center, min. -/
def LeftStickCalibration.toBytes (s : LeftStickCalibration) : List Nat :=
  s.maxRaw.toBytes ++ s.centerRaw.toBytes ++ s.minRaw.toBytes

def LeftStickCalibration.ofBytes (l : List Nat) : LeftStickCalibration :=
  ⟨Byte3.ofBytes l, Byte3.ofBytes (l.drop 3), Byte3.ofBytes (l.drop 6)⟩

/-- Byte layout of RightStickCalibration: center, min, max. -/
def RightStickCalibration.toBytes (s : RightStickCalibration) : List Nat :=
  s.centerRaw.toBytes ++ s.minRaw.toBytes ++ s.maxRaw.toBytes

def RightStickCalibration.ofBytes (l : List Nat) : RightStickCalibration :=
  ⟨Byte3.ofBytes l, Byte3.ofBytes (l.drop 3), Byte3.ofBytes (l.drop 6)⟩

/-- Embedding of SticksCalibration: factory left and right records. -/
structure SticksCalibration where
  left : LeftStickCalibration
  right : RightStickCalibration
deriving DecidableEq

def SticksCalibration.toBytes (s : SticksCalibration) : List Nat :=
  s.left.toBytes ++ s.right.toBytes

def SticksCalibration.ofBytes (l : List Nat) : SticksCalibration :=
  ⟨LeftStickCalibration.ofBytes l, RightStickCalibration.ofBytes (l.drop 9)⟩

def LeftUserStickCalibration.toBytes (s : LeftUserStickCalibration) : List Nat :=
  [s.magic.1, s.magic.2] ++ s.calib.toBytes

def LeftUserStickCalibration.ofBytes (l : List Nat) : LeftUserStickCalibration :=
  ⟨(l.getD 0 0, l.getD 1 0), LeftStickCalibration.ofBytes (l.drop 2)⟩

def RightUserStickCalibration.toBytes (s : RightUserStickCalibration) : List Nat :=
  [s.magic.1, s.magic.2] ++ s.calib.toBytes

def RightUserStickCalibration.ofBytes (l : List Nat) : RightUserStickCalibration :=
  ⟨(l.getD 0 0, l.getD 1 0), RightStickCalibration.ofBytes (l.drop 2)⟩

/-- Embedding of UserSticksCalibration: user left and right records. -/
structure UserSticksCalibration where
  left : LeftUserStickCalibration
  right : RightUserStickCalibration
deriving DecidableEq

def UserSticksCalibration.toBytes (s : UserSticksCalibration) : List Nat :=
  s.left.toBytes ++ s.right.toBytes

def UserSticksCalibration.ofBytes (l : List Nat) : UserSticksCalibration :=
  ⟨LeftUserStickCalibration.ofBytes l, RightUserStickCalibration.ofBytes (l.drop 11)⟩

/-- Serialization of a 3-vector of little-endian 16-bit values. -/
def vec3ToBytes (v : I16LE × I16LE × I16LE) : List Nat :=
  [v.1.b0, v.1.b1, v.2.1.b0, v.2.1.b1, v.2.2.b0, v.2.2.b1]

def vec3OfBytes (l : List Nat) : I16LE × I16LE × I16LE :=
  (⟨l.getD 0 0, l.getD 1 0⟩, ⟨l.getD 2 0, l.getD 3 0⟩, ⟨l.getD 4 0, l.getD 5 0⟩)

/-- Embedding of SensorCalibration: accelerometer and gyroscope origin
and sensitivity vectors of 16-bit little-endian values. -/
structure SensorCalibration where
  acc_orig : I16LE × I16LE × I16LE
  acc_sens : I16LE × I16LE × I16LE
  gyro_orig : I16LE × I16LE × I16LE
  gyro_sens : I16LE × I16LE × I16LE
deriving DecidableEq

def SensorCalibration.toBytes (s : SensorCalibration) : List Nat :=
  vec3ToBytes s.acc_orig ++ vec3ToBytes s.acc_sens ++
    vec3ToBytes s.gyro_orig ++ vec3ToBytes s.gyro_sens

def SensorCalibration.ofBytes (l : List Nat) : SensorCalibration :=
  ⟨vec3OfBytes l, vec3OfBytes (l.drop 6), vec3OfBytes (l.drop 12), vec3OfBytes (l.drop 18)⟩

/-- Embedding of UserSensorCalibration: magic sentinel plus sensor
calibration payload. -/
structure UserSensorCalibration where
  magic : Nat × Nat
  calib : SensorCalibration
deriving DecidableEq

def UserSensorCalibration.toBytes (s : UserSensorCalibration) : List Nat :=
  [s.magic.1, s.magic.2] ++ s.calib.toBytes

def UserSensorCalibration.ofBytes (l : List Nat) : UserSensorCalibration :=
  ⟨(l.getD 0 0, l.getD 1 0), SensorCalibration.ofBytes (l.drop 2)⟩

/-- Embedding of Color: an RGB byte triplet. -/
structure Color where
  r : Nat
  g : Nat
  b : Nat
deriving DecidableEq

/-- Embedding of ControllerColor: body, buttons and grip colors. -/
structure ControllerColor where
  body : Color
  buttons : Color
  left_grip : Color
  right_grip : Color
deriving DecidableEq

def Color.toBytes (c : Color) : List Nat := [c.r, c.g, c.b]

def Color.ofBytes (l : List Nat) : Color := ⟨l.getD 0 0, l.getD 1 0, l.getD 2 0⟩

def ControllerColor.toBytes (c : ControllerColor) : List Nat :=
  c.body.toBytes ++ c.buttons.toBytes ++ c.left_grip.toBytes ++ c.right_grip.toBytes

def ControllerColor.ofBytes (l : List Nat) : ControllerColor :=
  ⟨Color.ofBytes l, Color.ofBytes (l.drop 3), Color.ofBytes (l.drop 6), Color.ofBytes (l.drop 9)⟩

/-! The SPI capability interface: the fixed range of each payload type,
the infallible conversion into SPIReadResult, and the fallible
range-checked conversion out of SPIReadResult. -/

def SticksCalibration.range : SPIRange := RANGE_FACTORY_CALIBRATION_STICKS

def UserSticksCalibration.range : SPIRange := RANGE_USER_CALIBRATION_STICKS

def SensorCalibration.range : SPIRange := RANGE_FACTORY_CALIBRATION_SENSORS

def UserSensorCalibration.range : SPIRange := RANGE_USER_CALIBRATION_SENSORS

def ControllerColor.range : SPIRange := RANGE_CONTROLLER_COLOR

def SticksCalibration.intoReadResult (v : SticksCalibration) : SPIReadResult :=
  ⟨u32ToLEBytes SticksCalibration.range.offset, SticksCalibration.range.size,
   v.toBytes ++ List.replicate (0x1D - 18) 0⟩

def UserSticksCalibration.intoReadResult (v : UserSticksCalibration) : SPIReadResult :=
  ⟨u32ToLEBytes UserSticksCalibration.range.offset, UserSticksCalibration.range.size,
   v.toBytes ++ List.replicate (0x1D - 22) 0⟩

def SensorCalibration.intoReadResult (v : SensorCalibration) : SPIReadResult :=
  ⟨u32ToLEBytes SensorCalibration.range.offset, SensorCalibration.range.size,
   v.toBytes ++ List.replicate (0x1D - 24) 0⟩

def UserSensorCalibration.intoReadResult (v : UserSensorCalibration) : SPIReadResult :=
  ⟨u32ToLEBytes UserSensorCalibration.range.offset, UserSensorCalibration.range.size,
   v.toBytes ++ List.replicate (0x1D - 26) 0⟩

def ControllerColor.intoReadResult (v : ControllerColor) : SPIReadResult :=
  ⟨u32ToLEBytes ControllerColor.range.offset, ControllerColor.range.size,
   v.toBytes ++ List.replicate (0x1D - 12) 0⟩

def SticksCalibration.tryFromReadResult (r : SPIReadResult) :
    Except WrongRangeError SticksCalibration :=
  if r.range = SticksCalibration.range then .ok (.ofBytes r.data)
  else .error ⟨SticksCalibration.range, r.range⟩

def UserSticksCalibration.tryFromReadResult (r : SPIReadResult) :
    Except WrongRangeError UserSticksCalibration :=
  if r.range = UserSticksCalibration.range then .ok (.ofBytes r.data)
  else .error ⟨UserSticksCalibration.range, r.range⟩

def SensorCalibration.tryFromReadResult (r : SPIReadResult) :
    Except WrongRangeError SensorCalibration :=
  if r.range = SensorCalibration.range then .ok (.ofBytes r.data)
  else .error ⟨SensorCalibration.range, r.range⟩

def UserSensorCalibration.tryFromReadResult (r : SPIReadResult) :
    Except WrongRangeError UserSensorCalibration :=
  if r.range = UserSensorCalibration.range then .ok (.ofBytes r.data)
  else .error ⟨UserSensorCalibration.range, r.range⟩

def ControllerColor.tryFromReadResult (r : SPIReadResult) :
    Except WrongRangeError ControllerColor :=
  if r.range = ControllerColor.range then .ok (.ofBytes r.data)
  else .error ⟨ControllerColor.range, r.range⟩

theorem sticks_into_range (a : SticksCalibration) :
    (a.intoReadResult).range = SticksCalibration.range := by
  simp [SticksCalibration.intoReadResult, SPIReadResult.range, SticksCalibration.range,
    RANGE_FACTORY_CALIBRATION_STICKS, u32ToLEBytes, u32FromLEBytes]

theorem user_sticks_into_range (a : UserSticksCalibration) :
    (a.intoReadResult).range = UserSticksCalibration.range := by
  simp [UserSticksCalibration.intoReadResult, SPIReadResult.range, UserSticksCalibration.range,
    RANGE_USER_CALIBRATION_STICKS, u32ToLEBytes, u32FromLEBytes]

theorem sensor_into_range (a : SensorCalibration) :
    (a.intoReadResult).range = SensorCalibration.range := by
  simp [SensorCalibration.intoReadResult, SPIReadResult.range, SensorCalibration.range,
    RANGE_FACTORY_CALIBRATION_SENSORS, u32ToLEBytes, u32FromLEBytes]

theorem user_sensor_into_range (a : UserSensorCalibration) :
    (a.intoReadResult).range = UserSensorCalibration.range := by
  simp [UserSensorCalibration.intoReadResult, SPIReadResult.range, UserSensorCalibration.range,
    RANGE_USER_CALIBRATION_SENSORS, u32ToLEBytes, u32FromLEBytes]

theorem color_into_range (a : ControllerColor) :
    (a.intoReadResult).range = ControllerColor.range := by
  simp [ControllerColor.intoReadResult, SPIReadResult.range, ControllerColor.range,
    RANGE_CONTROLLER_COLOR, u32ToLEBytes, u32FromLEBytes]

/-- C5: converting any SPI payload value into an SPIReadResult and then
attempting the fallible conversion to a payload type with a different
fixed range fails with a wrong-range error carrying the expected range
(that of the target type) and the actual range (that of the source type); converting
back to the source type succeeds and recovers the original value. -/
theorem spi_range_matching_conversions :
    (∀ a : SticksCalibration,
      SticksCalibration.tryFromReadResult a.intoReadResult = .ok a) ∧
    (∀ a : SticksCalibration,
      UserSticksCalibration.tryFromReadResult a.intoReadResult =
        .error ⟨UserSticksCalibration.range, SticksCalibration.range⟩) ∧
    (∀ a : SticksCalibration,
      SensorCalibration.tryFromReadResult a.intoReadResult =
        .error ⟨SensorCalibration.range, SticksCalibration.range⟩) ∧
    (∀ a : SticksCalibration,
      UserSensorCalibration.tryFromReadResult a.intoReadResult =
        .error ⟨UserSensorCalibration.range, SticksCalibration.range⟩) ∧
    (∀ a : SticksCalibration,
      ControllerColor.tryFromReadResult a.intoReadResult =
        .error ⟨ControllerColor.range, SticksCalibration.range⟩) ∧
    (∀ a : UserSticksCalibration,
      UserSticksCalibration.tryFromReadResult a.intoReadResult = .ok a) ∧
    (∀ a : UserSticksCalibration,
      SticksCalibration.tryFromReadResult a.intoReadResult =
        .error ⟨SticksCalibration.range, UserSticksCalibration.range⟩) ∧
    (∀ a : UserSticksCalibration,
      SensorCalibration.tryFromReadResult a.intoReadResult =
        .error ⟨SensorCalibration.range, UserSticksCalibration.range⟩) ∧
    (∀ a : UserSticksCalibration,
      UserSensorCalibration.tryFromReadResult a.intoReadResult =
        .error ⟨UserSensorCalibration.range, UserSticksCalibration.range⟩) ∧
    (∀ a : UserSticksCalibration,
      ControllerColor.tryFromReadResult a.intoReadResult =
        .error ⟨ControllerColor.range, UserSticksCalibration.range⟩) ∧
    (∀ a : SensorCalibration,
      SensorCalibration.tryFromReadResult a.intoReadResult = .ok a) ∧
    (∀ a : SensorCalibration,
      SticksCalibration.tryFromReadResult a.intoReadResult =
        .error ⟨SticksCalibration.range, SensorCalibration.range⟩) ∧
    (∀ a : SensorCalibration,
      UserSticksCalibration.tryFromReadResult a.intoReadResult =
        .error ⟨UserSticksCalibration.range, SensorCalibration.range⟩) ∧
    (∀ a : SensorCalibration,
      UserSensorCalibration.tryFromReadResult a.intoReadResult =
        .error ⟨UserSensorCalibration.range, SensorCalibration.range⟩) ∧
    (∀ a : SensorCalibration,
      ControllerColor.tryFromReadResult a.intoReadResult =
        .error ⟨ControllerColor.range, SensorCalibration.range⟩) ∧
    (∀ a : UserSensorCalibration,
      UserSensorCalibration.tryFromReadResult a.intoReadResult = .ok a) ∧
    (∀ a : UserSensorCalibration,
      SticksCalibration.tryFromReadResult a.intoReadResult =
        .error ⟨SticksCalibration.range, UserSensorCalibration.range⟩) ∧
    (∀ a : UserSensorCalibration,
      UserSticksCalibration.tryFromReadResult a.intoReadResult =
        .error ⟨UserSticksCalibration.range, UserSensorCalibration.range⟩) ∧
    (∀ a : UserSensorCalibration,
      SensorCalibration.tryFromReadResult a.intoReadResult =
        .error ⟨SensorCalibration.range, UserSensorCalibration.range⟩) ∧
    (∀ a : UserSensorCalibration,
      ControllerColor.tryFromReadResult a.intoReadResult =
        .error ⟨ControllerColor.range, UserSensorCalibration.range⟩) ∧
    (∀ a : ControllerColor,
      ControllerColor.tryFromReadResult a.intoReadResult = .ok a) ∧
    (∀ a : ControllerColor,
      SticksCalibration.tryFromReadResult a.intoReadResult =
        .error ⟨SticksCalibration.range, ControllerColor.range⟩) ∧
    (∀ a : ControllerColor,
      UserSticksCalibration.tryFromReadResult a.intoReadResult =
        .error ⟨UserSticksCalibration.range, ControllerColor.range⟩) ∧
    (∀ a : ControllerColor,
      SensorCalibration.tryFromReadResult a.intoReadResult =
        .error ⟨SensorCalibration.range, ControllerColor.range⟩) ∧
    (∀ a : ControllerColor,
      UserSensorCalibration.tryFromReadResult a.intoReadResult =
        .error ⟨UserSensorCalibration.range, ControllerColor.range⟩) := by
  refine ⟨?_, ?_, ?_, ?_, ?_, ?_, ?_, ?_, ?_, ?_, ?_, ?_, ?_, ?_, ?_, ?_, ?_, ?_, ?_, ?_,
    ?_, ?_, ?_, ?_, ?_⟩ <;> intro a
  · rw [SticksCalibration.tryFromReadResult, sticks_into_range, if_pos rfl]
    rfl
  · rw [UserSticksCalibration.tryFromReadResult, sticks_into_range, if_neg (by decide)]
  · rw [SensorCalibration.tryFromReadResult, sticks_into_range, if_neg (by decide)]
  · rw [UserSensorCalibration.tryFromReadResult, sticks_into_range, if_neg (by decide)]
  · rw [ControllerColor.tryFromReadResult, sticks_into_range, if_neg (by decide)]
  · rw [UserSticksCalibration.tryFromReadResult, user_sticks_into_range, if_pos rfl]
    rfl
  · rw [SticksCalibration.tryFromReadResult, user_sticks_into_range, if_neg (by decide)]
  · rw [SensorCalibration.tryFromReadResult, user_sticks_into_range, if_neg (by decide)]
  · rw [UserSensorCalibration.tryFromReadResult, user_sticks_into_range, if_neg (by decide)]
  · rw [ControllerColor.tryFromReadResult, user_sticks_into_range, if_neg (by decide)]
  · rw [SensorCalibration.tryFromReadResult, sensor_into_range, if_pos rfl]
    rfl
  · rw [SticksCalibration.tryFromReadResult, sensor_into_range, if_neg (by decide)]
  · rw [UserSticksCalibration.tryFromReadResult, sensor_into_range, if_neg (by decide)]
  · rw [UserSensorCalibration.tryFromReadResult, sensor_into_range, if_neg (by decide)]
  · rw [ControllerColor.tryFromReadResult, sensor_into_range, if_neg (by decide)]
  · rw [UserSensorCalibration.tryFromReadResult, user_sensor_into_range, if_pos rfl]
    rfl
  · rw [SticksCalibration.tryFromReadResult, user_sensor_into_range, if_neg (by decide)]
  · rw [UserSticksCalibration.tryFromReadResult, user_sensor_into_range, if_neg (by decide)]
  · rw [SensorCalibration.tryFromReadResult, user_sensor_into_range, if_neg (by decide)]
  · rw [ControllerColor.tryFromReadResult, user_sensor_into_range, if_neg (by decide)]
  · rw [ControllerColor.tryFromReadResult, color_into_range, if_pos rfl]
    rfl
  · rw [SticksCalibration.tryFromReadResult, color_into_range, if_neg (by decide)]
  · rw [UserSticksCalibration.tryFromReadResult, color_into_range, if_neg (by decide)]
  · rw [SensorCalibration.tryFromReadResult, color_into_range, if_neg (by decide)]
  · rw [UserSensorCalibration.tryFromReadResult, color_into_range, if_neg (by decide)]

/-! ## Color string parsing (src/spi.rs, FromStr for Color)

Strings are modelled as their byte sequences; the inputs of interest are
ASCII, for which the Rust byte length and slicing agree with this model. -/

/-- Error kinds of the Rust integer parser relevant to u8 parsing. -/
inductive IntErrorKind where
  | empty : IntErrorKind
  | invalidDigit : IntErrorKind
  | posOverflow : IntErrorKind
deriving DecidableEq

/-- Embedding of char::to_digit with radix 16: ASCII digits and letters
a to f in either case. -/
def to_digit16 (c : Nat) : Option Nat :=
  if 0x30 ≤ c ∧ c ≤ 0x39 then some (c - 0x30)
  else if 0x61 ≤ c ∧ c ≤ 0x66 then some (c - 0x61 + 10)
  else if 0x41 ≤ c ∧ c ≤ 0x46 then some (c - 0x41 + 10)
  else none

/-- Whether a byte is an ASCII hex digit. -/
def isHexAsciiDigit (c : Nat) : Bool := (to_digit16 c).isSome

/-- Digit-accumulation loop of u8::from_str_radix with radix 16: each
step multiplies by 16 and adds the digit with checked u8 arithmetic. -/
def from_str_radix_go : List Nat → Nat → Except IntErrorKind Nat
  | [], acc => .ok acc
  | c :: cs, acc =>
    match to_digit16 c with
    | none => .error .invalidDigit
    | some d =>
      if acc * 16 + d < 256 then from_str_radix_go cs (acc * 16 + d)
      else .error .posOverflow

/-- Embedding of u8::from_str_radix with radix 16: empty input is an
error, a leading plus sign followed by at least one character is
accepted and skipped, and the remaining characters must be hex digits. -/
def from_str_radix_u8_16 (s : List Nat) : Except IntErrorKind Nat :=
  match s with
  | [] => .error .empty
  | c :: rest =>
    if c = 0x2B ∧ rest ≠ [] then from_str_radix_go rest 0
    else from_str_radix_go s 0

/-- Embedding of FromStr for Color. The source asserts the byte length is
exactly 6 (none here models the assert panic) and then parses three
2-character groups with u8::from_str_radix, propagating the first
failure. -/
def Color.from_str (s : List Nat) : Option (Except IntErrorKind Color) :=
  if s.length = 6 then
    some (do
      let r ← from_str_radix_u8_16 (s.take 2)
      let g ← from_str_radix_u8_16 ((s.drop 2).take 2)
      let b ← from_str_radix_u8_16 ((s.drop 4).take 2)
      pure (Color.mk r g b))
  else none

theorem go_ok_head {c : Nat} {cs : List Nat} {acc v : Nat}
    (h : from_str_radix_go (c :: cs) acc = .ok v) : isHexAsciiDigit c = true := by
  rw [from_str_radix_go] at h
  cases hc : to_digit16 c with
  | none => simp [hc] at h
  | some d => simp [isHexAsciiDigit, hc]

theorem go_ok_tail {c : Nat} {cs : List Nat} {acc v : Nat}
    (h : from_str_radix_go (c :: cs) acc = .ok v) :
    ∃ acc2 v2, from_str_radix_go cs acc2 = .ok v2 := by
  rw [from_str_radix_go] at h
  cases hc : to_digit16 c with
  | none => simp [hc] at h
  | some d =>
    simp only [hc] at h
    split at h
    · exact ⟨_, _, h⟩
    · exact absurd h (by simp)

theorem parse2_ok_chars {x y v : Nat}
    (h : from_str_radix_u8_16 [x, y] = .ok v) :
    (isHexAsciiDigit x = true ∨ x = 0x2B) ∧ isHexAsciiDigit y = true := by
  simp only [from_str_radix_u8_16] at h
  split at h
  · next hc => exact ⟨Or.inr hc.1, go_ok_head h⟩
  · next hc =>
    refine ⟨Or.inl (go_ok_head h), ?_⟩
    obtain ⟨acc2, v2, h2⟩ := go_ok_tail h
    exact go_ok_head h2

/-- C4 counterexample: a 6-character string whose characters are not all
hex digits is parsed successfully, because the underlying integer parser
accepts a leading plus sign in each 2-character group: the plus signs in
the input here are not hex characters, yet the result is ok, not a parse
failure. -/
theorem color_from_str_accepts_plus_sign :
    isHexAsciiDigit 0x2B = false ∧
    Color.from_str [0x2B, 0x66, 0x2B, 0x66, 0x2B, 0x66] =
      some (.ok (Color.mk 0xF 0xF 0xF)) := by
  constructor
  · decide
  · rfl

/-- C4 amended: for every 6-character color string containing a non-hex
character other than the plus sign, from_str returns a typed recoverable
parse failure propagated to the caller and does not abort. -/
theorem color_from_str_err_on_non_hex_non_plus (s : List Nat) (hlen : s.length = 6)
    (hbad : ∃ x ∈ s, isHexAsciiDigit x = false ∧ x ≠ 0x2B) :
    ∃ err, Color.from_str s = some (.error err) := by
  rcases s with _ | ⟨a, _ | ⟨b, _ | ⟨c, _ | ⟨d, _ | ⟨e, _ | ⟨f, rest⟩⟩⟩⟩⟩⟩ <;> simp at hlen
  subst hlen
  cases h1 : from_str_radix_u8_16 [a, b] with
  | error err =>
    refine ⟨err, ?_⟩
    simp [Color.from_str, h1, Bind.bind, Except.bind, Functor.map, Except.map]
  | ok v1 =>
    cases h2 : from_str_radix_u8_16 [c, d] with
    | error err =>
      refine ⟨err, ?_⟩
      simp [Color.from_str, h1, h2, Bind.bind, Except.bind, Functor.map, Except.map]
    | ok v2 =>
      cases h3 : from_str_radix_u8_16 [e, f] with
      | error err =>
        refine ⟨err, ?_⟩
        simp [Color.from_str, h1, h2, h3, Bind.bind, Except.bind, Functor.map, Except.map]
      | ok v3 =>
        exfalso
        have p1 := parse2_ok_chars h1
        have p2 := parse2_ok_chars h2
        have p3 := parse2_ok_chars h3
        obtain ⟨x, hx, hb1, hb2⟩ := hbad
        simp at hx
        rcases hx with rfl | rfl | rfl | rfl | rfl | rfl
        · rcases p1.1 with h | h
          · simp [h] at hb1
          · exact hb2 h
        · simp [p1.2] at hb1
        · rcases p2.1 with h | h
          · simp [h] at hb1
          · exact hb2 h
        · simp [p2.2] at hb1
        · rcases p3.1 with h | h
          · simp [h] at hb1
          · exact hb2 h
        · simp [p3.2] at hb1

theorem color_from_str_err_on_non_hex_non_plus_witness :
    ([0x67, 0x67, 0x30, 0x30, 0x30, 0x30] : List Nat).length = 6 ∧
    (∃ x ∈ ([0x67, 0x67, 0x30, 0x30, 0x30, 0x30] : List Nat),
      isHexAsciiDigit x = false ∧ x ≠ 0x2B) ∧
    ∃ err, Color.from_str [0x67, 0x67, 0x30, 0x30, 0x30, 0x30] = some (.error err) :=
  ⟨by decide, by decide,
   color_from_str_err_on_non_hex_non_plus _ (by decide) (by decide)⟩

/-! ## Tag wrapper and tagged-variant frame contract (src/common.rs, src/lib.rs)

The raw_enum generator is modelled generically: an instantiation supplies
the identifier type, its byte decoding and encoding functions (the
FromPrimitive and ToPrimitive derives), header sizes, and per-variant
union read and write functions. The InputReportId enumeration from
src/common.rs serves as the concrete instantiation for evaluation. -/

/-- Embedding of InputReportId with discriminants 0x3F, 0x21, 0x23, 0x30
and 0x31. -/
inductive InputReportId where
  | Normal : InputReportId
  | StandardAndSubcmd : InputReportId
  | MCUFwUpdate : InputReportId
  | StandardFull : InputReportId
  | StandardFullMCU : InputReportId
deriving DecidableEq, Fintype

/-- Embedding of the FromPrimitive derive for InputReportId. -/
def InputReportId.from_u8 (b : Nat) : Option InputReportId :=
  if b = 0x3F then some .Normal
  else if b = 0x21 then some .StandardAndSubcmd
  else if b = 0x23 then some .MCUFwUpdate
  else if b = 0x30 then some .StandardFull
  else if b = 0x31 then some .StandardFullMCU
  else none

/-- Embedding of the ToPrimitive derive for InputReportId. -/
def InputReportId.to_u8 : InputReportId → Nat
  | .Normal => 0x3F
  | .StandardAndSubcmd => 0x21
  | .MCUFwUpdate => 0x23
  | .StandardFull => 0x30
  | .StandardFullMCU => 0x31

/-- Embedding of RawId: one byte with a phantom association to an
identifier type. The decoding function is passed explicitly where the
Rust code uses the FromPrimitive bound. -/
structure RawId (Id : Type) where
  byte : Nat
deriving DecidableEq

/-- Embedding of the inherent RawId::try_into, returning none when the
byte is not an enumerated identifier. -/
def RawId.try_into {Id : Type} (fromU8 : Nat → Option Id) (r : RawId Id) : Option Id :=
  fromU8 r.byte

/-- Embedding of PartialEq between RawId and Id. The source calls expect
on the decoded byte, which panics when the byte is not an enumerated
identifier; the value none models that panic, and some b a comparison
that returned the boolean b. -/
def RawId.eq {Id : Type} [DecidableEq Id] (fromU8 : Nat → Option Id)
    (r : RawId Id) (other : Id) : Option Bool :=
  match fromU8 r.byte with
  | some x => some (decide (x = other))
  | none => none

/-- Embedding of the frame type produced by the raw_enum generator:
optional header bytes before and after the tag, the tag wrapper, and the
payload union region held as raw bytes. -/
structure RawEnumStruct (Id : Type) where
  pre : List Nat
  id : RawId Id
  post : List Nat
  u : List Nat

/-- Embedding of a generated per-variant accessor: the generator emits a
comparison of the stored tag against the variant identifier through the
RawId PartialEq instance and returns the typed payload only on a match.
The outer option models termination: none is a panic escaping from the
tag comparison, some none the typed absence the accessor returns on a
recognized tag that selects a different variant. -/
def RawEnumStruct.get_variant {Id : Type} {α : Type} [DecidableEq Id]
    (fromU8 : Nat → Option Id) (vid : Id) (read : List Nat → α)
    (s : RawEnumStruct Id) : Option (Option α) :=
  match RawId.eq fromU8 s.id vid with
  | none => none
  | some true => some (some (read s.u))
  | some false => some none

/-- Embedding of the generated TryFrom conversion from frame to decoded
view: it decodes the tag with the inherent try_into and fails with the
original frame when the tag is not a declared case. -/
def frameToView {Id : Type} {P : Id → Type} (fromU8 : Nat → Option Id)
    (read : (i : Id) → List Nat → P i) (s : RawEnumStruct Id) :
    Except (RawEnumStruct Id) (Sigma P) :=
  match RawId.try_into fromU8 s.id with
  | some i => .ok ⟨i, read i s.u⟩
  | none => .error s

/-- Embedding of the generated From conversion from decoded view to
frame: total, encoding the tag and payload and zero-filling the header
fields with their Default instances. -/
def viewToFrame {Id : Type} {P : Id → Type} (toU8 : Id → Nat)
    (write : (i : Id) → P i → List Nat) (npre npost : Nat) (v : Sigma P) :
    RawEnumStruct Id :=
  { pre := List.replicate npre 0
    id := ⟨toU8 v.1⟩
    post := List.replicate npost 0
    u := write v.1 v.2 }

/-- C1 is false on the code: a generated per-variant accessor panics on
a frame whose tag byte is not an enumerated identifier, because the
RawId PartialEq instance it calls uses expect on the decoded tag. At the
unenumerated tag byte 0x22 the accessor aborts (none) instead of
returning the typed absence; on enumerated tag bytes it behaves as the
claim states. -/
theorem get_variant_aborts_on_unknown_tag :
    RawEnumStruct.get_variant InputReportId.from_u8 InputReportId.Normal
      (fun u => u) ⟨[], ⟨0x22⟩, [], []⟩ = none ∧
    InputReportId.from_u8 0x22 = none ∧
    RawEnumStruct.get_variant InputReportId.from_u8 InputReportId.Normal
      (fun u => u) ⟨[], ⟨0x3F⟩, [], [1, 2]⟩ = some (some [1, 2]) ∧
    RawEnumStruct.get_variant InputReportId.from_u8 InputReportId.Normal
      (fun u => u) ⟨[], ⟨0x21⟩, [], [1, 2]⟩ = some none :=
  ⟨rfl, rfl, rfl, rfl⟩

/-- C3 is false on the code: comparing a RawId holding a byte outside
the enumerated identifier set against an identifier panics (none)
instead of evaluating to false, because the PartialEq implementation
calls expect on the decoded byte; on enumerated bytes the comparison
is true exactly when the byte decodes to the compared identifier. -/
theorem raw_id_eq_aborts_on_unknown_byte :
    RawId.eq InputReportId.from_u8 (⟨0x00⟩ : RawId InputReportId)
      InputReportId.Normal = none ∧
    InputReportId.from_u8 0x00 = none ∧
    RawId.eq InputReportId.from_u8 (⟨0x3F⟩ : RawId InputReportId)
      InputReportId.Normal = some true ∧
    RawId.eq InputReportId.from_u8 (⟨0x21⟩ : RawId InputReportId)
      InputReportId.Normal = some false :=
  ⟨rfl, rfl, rfl, rfl⟩

/-- C8: for any instantiation of the raw_enum contract whose identifier
byte encoding round-trips and whose union write and read are inverse,
frame to view conversion fails exactly when the tag byte matches no
declared case and the error value is the original frame unchanged; view
to frame conversion is total and zero-fills the header fields; and every
declared variant payload survives the frame, view, frame round trip. -/
theorem raw_enum_view_conversions {Id : Type} {P : Id → Type}
    (fromU8 : Nat → Option Id) (toU8 : Id → Nat)
    (read : (i : Id) → List Nat → P i) (write : (i : Id) → P i → List Nat)
    (npre npost : Nat)
    (hid : ∀ i, fromU8 (toU8 i) = some i)
    (hrw : ∀ i p, read i (write i p) = p) :
    (∀ v : Sigma P,
      frameToView fromU8 read (viewToFrame toU8 write npre npost v) = .ok v) ∧
    (∀ s : RawEnumStruct Id, ∀ f, frameToView fromU8 read s = .error f →
      f = s ∧ fromU8 s.id.byte = none) ∧
    (∀ s : RawEnumStruct Id, fromU8 s.id.byte = none →
      frameToView fromU8 read s = .error s) ∧
    (∀ v : Sigma P,
      (viewToFrame toU8 write npre npost v).pre = List.replicate npre 0 ∧
      (viewToFrame toU8 write npre npost v).post = List.replicate npost 0) := by
  refine ⟨?_, ?_, ?_, fun v => ⟨rfl, rfl⟩⟩
  · intro v
    obtain ⟨i, p⟩ := v
    simp [frameToView, viewToFrame, RawId.try_into, hid i, hrw i p]
  · intro s f h
    rw [frameToView] at h
    cases hm : RawId.try_into fromU8 s.id with
    | some i => rw [hm] at h; simp at h
    | none =>
      rw [hm] at h
      simp only [Except.error.injEq] at h
      exact ⟨h.symm, hm⟩
  · intro s hm
    simp [frameToView, RawId.try_into, hm]

theorem raw_enum_view_conversions_witness :
    (∀ i, InputReportId.from_u8 (InputReportId.to_u8 i) = some i) ∧
    frameToView InputReportId.from_u8 (fun _ u => u.getD 0 0)
      (viewToFrame InputReportId.to_u8 (fun _ p => [p]) 0 1
        ⟨InputReportId.Normal, 5⟩) = .ok ⟨InputReportId.Normal, 5⟩ :=
  ⟨by decide,
   (raw_enum_view_conversions InputReportId.from_u8 InputReportId.to_u8
      (fun _ u => u.getD 0 0) (fun _ p => [p]) 0 1 (by decide)
      (fun _ _ => rfl)).1 ⟨InputReportId.Normal, 5⟩⟩
